import Mathlib

/-
Shallow embedding of src/main.py (Flask proxy over the Ticketmaster
discovery API).  Vendor JSON payloads are modelled by the inductive
type `Json`; Python dictionary/list accesses are modelled in the monad
`PyM := Except Unit`, where `.error ()` stands for an uncaught Python
exception (KeyError, IndexError, TypeError, AttributeError).  Each
Flask handler becomes a function from the parsed vendor payload to a
result; the implicit `return None` path of Python (falling off the end
of a function) is a distinct `HResult.implicitNone` outcome.
-/

inductive Json where
  | null : Json
  | bool (b : Bool) : Json
  | num (n : Int) : Json
  | str (s : String) : Json
  | arr (elems : List Json) : Json
  | obj (fields : List (String × Json)) : Json

/-- Python exceptions are not caught anywhere in main.py, so the error
type carries no information. -/
abbrev PyM (α : Type) := Except Unit α

/-- Python `d[k]` on a dict: KeyError when absent, TypeError when the
value is not a dict. -/
def Json.getKey : Json → String → PyM Json
  | .obj fs, k =>
    match fs.lookup k with
    | some v => .ok v
    | none => .error ()
  | _, _ => .error ()

/-- Python `k in d.keys()`: AttributeError when `d` is not a dict. -/
def Json.keysHas : Json → String → PyM Bool
  | .obj fs, k => .ok (fs.lookup k).isSome
  | _, _ => .error ()

/-- Python `xs[i]` on a list: IndexError when out of range, TypeError
otherwise. -/
def Json.getIdx : Json → Nat → PyM Json
  | .arr es, i =>
    match es.get? i with
    | some v => .ok v
    | none => .error ()
  | _, _ => .error ()

/-- Python string concatenation `s + v`: TypeError unless `v` is a str. -/
def Json.asString : Json → PyM String
  | .str s => .ok s
  | _ => .error ()

/-- Python `k in d` without `.keys()` (line 144 of main.py): key test on a
dict, element membership on a list, substring test on a str, TypeError
otherwise. -/
def Json.pyIn (k : String) : Json → PyM Bool
  | .obj fs => .ok (fs.lookup k).isSome
  | .arr es => .ok (es.any fun e => match e with | .str s => s == k | _ => false)
  | .str s => .ok (s.data.tails.any fun t => k.data.isPrefixOf t)
  | _ => .error ()

/-- Python `for x in v`: lists yield their elements, dicts their keys,
strings their one-character substrings; TypeError otherwise. -/
def Json.pyIter : Json → PyM (List Json)
  | .arr es => .ok es
  | .obj fs => .ok (fs.map fun kv => Json.str kv.1)
  | .str s => .ok (s.data.map fun c => Json.str (String.singleton c))
  | _ => .error ()

mutual

/-- Python `repr` on parsed-JSON values (dicts print with braces and
single-quoted keys, written here with escapes). -/
def Json.pyRepr : Json → String
  | .null => "None"
  | .bool b => cond b "True" "False"
  | .num n => toString n
  | .str s => "\x27" ++ s ++ "\x27"
  | .arr es => "[" ++ Json.pyReprList es ++ "]"
  | .obj fs => "\x7b" ++ Json.pyReprFields fs ++ "\x7d"

def Json.pyReprList : List Json → String
  | [] => ""
  | [e] => e.pyRepr
  | e :: rest => e.pyRepr ++ ", " ++ Json.pyReprList rest

def Json.pyReprFields : List (String × Json) → String
  | [] => ""
  | [(k, v)] => "\x27" ++ k ++ "\x27: " ++ v.pyRepr
  | (k, v) :: rest => "\x27" ++ k ++ "\x27: " ++ v.pyRepr ++ ", " ++ Json.pyReprFields rest

end

/-- Python `str(v)`: identity on str, repr otherwise (never raises). -/
def Json.pyStr : Json → String
  | .str s => s
  | j => j.pyRepr

/-- Pure lookup of a key in an object result, used to state properties of
handler outputs. -/
def Json.find : Json → String → Option Json
  | .obj fs, k => fs.lookup k
  | _, _ => none

/-- Python `x == "Undefined"` for a parsed-JSON value: true exactly for
the string literal, false for every value of another type. -/
def Json.isUndef : Json → Bool
  | .str s => s == "Undefined"
  | _ => false

/-- Monadic if on a Python boolean condition whose evaluation may raise. -/
def pyIf {α : Type} (c : PyM Bool) (x y : PyM α) : PyM α := do
  let b ← c
  if b then x else y

/-- Result of one Flask handler call on a parsed vendor payload:
an explicit returned value, the implicit `None` of falling off the end of
the Python function, or an uncaught exception. -/
inductive HResult where
  | ok (v : Json)
  | implicitNone
  | fault

/-- Module-level constant of main.py (line 11). -/
def key_ticketMaster : String := ""

/-- Module-level constant of main.py (line 12). -/
def loc_key : String := ""

/-- Module-level constant of main.py (line 13). -/
def google_api : String := ""

/-- Module-level constant of main.py (line 14). -/
def api_url : String :=
  "https://app.ticketmaster.com/discovery/v2/events.json?apikey=" ++ key_ticketMaster ++ "&"

/-- Lines 22-24 of main.py: the search handler truncates `geoHash` with
the slice `geoHash[0:6]` (Python slicing never raises; a shorter string
is kept whole) and splices it into the outbound vendor query URL. -/
def search_request_url (keyword distance segmentID geoHash : String) : String :=
  api_url ++ "keyword=" ++ keyword ++ "&segmentID=" ++ segmentID ++ "&radius=" ++ distance
    ++ "&unit=miles&geoPoint=" ++ (geoHash.take 6)

/-- The part of the outbound search URL before the geoPoint value. -/
def search_url_head (keyword distance segmentID : String) : String :=
  api_url ++ "keyword=" ++ keyword ++ "&segmentID=" ++ segmentID ++ "&radius=" ++ distance
    ++ "&unit=miles&geoPoint="

/-- Lines 39-50 of main.py: the body of the per-event loop of the search
handler.  Output dict insertion order: id, date, (time), icon, event,
genre, venue. -/
def searchEvent (event : Json) : PyM Json := do
  let idv ← event.getKey "id"
  let dates ← event.getKey "dates"
  let start ← dates.getKey "start"
  let date ← start.getKey "localDate"
  let timeFields ← pyIf (start.keysHas "localTime")
    (do
      let t ← start.getKey "localTime"
      pure [("time", t)])
    (pure [])
  let images ← event.getKey "images"
  let img0 ← images.getIdx 0
  let icon ← img0.getKey "url"
  let name ← event.getKey "name"
  let cls ← event.getKey "classifications"
  let c0 ← cls.getIdx 0
  let seg ← c0.getKey "segment"
  let genre ← seg.getKey "name"
  let emb ← event.getKey "_embedded"
  let venues ← emb.getKey "venues"
  let v0 ← venues.getIdx 0
  let venue ← v0.getKey "name"
  pure (Json.obj ([("id", idv), ("date", date)] ++ timeFields
    ++ [("icon", icon), ("event", name), ("genre", genre), ("venue", venue)]))

/-- Lines 39-50 of main.py: `temp_list = []; for event in data2: ...
temp_list.append(temp)` — the loop faults at the first event whose
expected nested fields are absent. -/
def mapEvents : List Json → PyM (List Json)
  | [] => .ok []
  | e :: rest => do
    let r ← searchEvent e
    let rs ← mapEvents rest
    pure (r :: rs)

/-- Lines 26-55 of main.py: the search handler after the vendor JSON has
been parsed.  `size = data[page][size]` runs before the `_embedded`
presence check; the unused `response_dump`/`response_load` round-trip of
lines 27-28 is the identity on parsed payloads and is omitted. -/
def searchM (data : Json) : PyM Json := do
  let page ← data.getKey "page"
  let _size ← page.getKey "size"
  pyIf (data.keysHas "_embedded")
    (do
      let emb ← data.getKey "_embedded"
      let events ← emb.getKey "events"
      let data2 ← events.pyIter
      let temp_list ← mapEvents data2
      pure (Json.obj [("events", Json.arr temp_list)]))
    (pure (Json.obj [("events", Json.num 0)]))

/-- The search handler as an HResult (it always returns explicitly when it
does not fault). -/
def search (data : Json) : HResult :=
  match searchM data with
  | .ok v => .ok v
  | .error _ => .fault

/-- Lines 89-98 of main.py: one guarded level of the genre string.
For the segment level `sep` is empty (`g += name`); for the four later
levels `sep` is the literal separator (`g += " | " + name`).  The
comparison `!= "Undefined"` never raises, but the concatenation raises
TypeError when the name is not a str. -/
def genreStep (c0 : Json) (lvl : String) (sep : String) (g : String) : PyM String :=
  pyIf (c0.keysHas lvl)
    (do
      let lv ← c0.getKey lvl
      let nm ← lv.getKey "name"
      if nm.isUndef then
        pure g
      else do
        let s ← nm.asString
        pure (g ++ sep ++ s))
    (pure g)

/-- Lines 88-99 of main.py: the five chained genre levels, in source
order. -/
def genreBuild (c0 : Json) : PyM String := do
  let g0 ← genreStep c0 "segment" "" ""
  let g1 ← genreStep c0 "genre" " | " g0
  let g2 ← genreStep c0 "subGenre" " | " g1
  let g3 ← genreStep c0 "type" " | " g2
  genreStep c0 "subType" " | " g3

/-- Lines 62-117 of main.py: the card1 handler after the vendor JSON has
been parsed.  `.ok none` is the implicit `return None` taken when the
payload has no `name` key.  Output dict insertion order: title, date,
(time), (artist_team), url, venue, genre, (price_ranges), ticket_status,
buy_ticket_at, (seat_map). -/
def card1M (data : Json) : PyM (Option Json) := do
  let hasName ← data.keysHas "name"
  if hasName then do
    let title ← data.getKey "name"
    let dates ← data.getKey "dates"
    let start ← dates.getKey "start"
    let date ← start.getKey "localDate"
    let timeFields ← pyIf (start.keysHas "localTime")
      (do
        let t ← start.getKey "localTime"
        pure [("time", t)])
      (pure [])
    let emb ← data.getKey "_embedded"
    let artistFields ← pyIf (emb.keysHas "attractions")
      (do
        let attrs ← emb.getKey "attractions"
        let a0 ← attrs.getIdx 0
        let an ← a0.getKey "name"
        pure [("artist_team", an)])
      (pure [])
    let url ← data.getKey "url"
    let venues ← emb.getKey "venues"
    let v0 ← venues.getIdx 0
    let venue ← v0.getKey "name"
    let cls ← data.getKey "classifications"
    let c0 ← cls.getIdx 0
    let g ← genreBuild c0
    let priceFields ← pyIf (data.keysHas "priceranges")
      (do
        let pr ← data.getKey "priceRanges"
        let p0 ← pr.getIdx 0
        let mn ← p0.getKey "min"
        let mx ← p0.getKey "max"
        let cur ← p0.getKey "currency"
        let curS ← cur.asString
        pure [("price_ranges", Json.str (mn.pyStr ++ "-" ++ mx.pyStr ++ " " ++ curS))])
      (pure [])
    let st ← dates.getKey "status"
    let statusCode ← st.getKey "code"
    let seatFields ← pyIf (data.keysHas "seatmap")
      (do
        let sm ← data.getKey "seatmap"
        let su ← sm.getKey "staticUrl"
        pure [("seat_map", su)])
      (pure [])
    let ret := Json.obj ([("title", title), ("date", date)] ++ timeFields ++ artistFields
      ++ [("url", url), ("venue", venue), ("genre", Json.str g)] ++ priceFields
      ++ [("ticket_status", statusCode), ("buy_ticket_at", url)] ++ seatFields)
    pure (some (Json.obj [("card1", Json.arr [ret])]))
  else
    pure none

/-- The card1 handler as an HResult. -/
def card1 (data : Json) : HResult :=
  match card1M data with
  | .ok (some v) => .ok v
  | .ok none => .implicitNone
  | .error _ => .fault

/-- Lines 122-161 of main.py: the card2 handler after the vendor JSON has
been parsed.  `.ok none` is the implicit `return None` taken when the
payload has no `_embedded` key.  The city guard of line 144 uses `in`
without `.keys()`; the map line concatenates `ret[venue]`, a TypeError
when the venue name is not a str.  Output dict insertion order: venue,
logo, (address), (city), (stateCode), (postal_code), (url), map. -/
def card2M (data : Json) : PyM (Option Json) := do
  let hasEmb ← data.keysHas "_embedded"
  if hasEmb then do
    let emb ← data.getKey "_embedded"
    let venues ← emb.getKey "venues"
    let v0 ← venues.getIdx 0
    let vname ← v0.getKey "name"
    let logo ← pyIf (v0.keysHas "images")
      (do
        let imgs ← v0.getKey "images"
        let i0 ← imgs.getIdx 0
        i0.getKey "url")
      (pure (Json.str "nologo"))
    let addressFields ← pyIf (v0.keysHas "address")
      (do
        let ad ← v0.getKey "address"
        let l1 ← ad.getKey "line1"
        pure [("address", l1)])
      (pure [])
    let cityFields ← pyIf (Json.pyIn "city" v0)
      (do
        let c ← v0.getKey "city"
        let cn ← c.getKey "name"
        pure [("city", cn)])
      (pure [])
    let stateFields ← pyIf (v0.keysHas "state")
      (pyIf (do
          let stv ← v0.getKey "state"
          stv.keysHas "stateCode")
        (do
          let stv ← v0.getKey "state"
          let sc ← stv.getKey "stateCode"
          pure [("stateCode", sc)])
        (pure []))
      (pure [])
    let postalFields ← pyIf (v0.keysHas "postalCode")
      (do
        let pc ← v0.getKey "postalCode"
        pure [("postal_code", pc)])
      (pure [])
    let urlFields ← pyIf (v0.keysHas "url")
      (do
        let u ← v0.getKey "url"
        pure [("url", u)])
      (pure [])
    let vnameS ← vname.asString
    let mapUrl := Json.str
      ("https://www.google.com/maps/search/?api=" ++ google_api ++ "&query=" ++ vnameS)
    pure (some (Json.obj ([("venue", vname), ("logo", logo)] ++ addressFields ++ cityFields
      ++ stateFields ++ postalFields ++ urlFields ++ [("map", mapUrl)])))
  else
    pure none

/-- The card2 handler as an HResult. -/
def card2 (data : Json) : HResult :=
  match card2M data with
  | .ok (some v) => .ok v
  | .ok none => .implicitNone
  | .error _ => .fault

/-- Reading of the spec sentence for claim C3: a classification level is
included in the genre string when its key is present and its name is a
string other than the literal "Undefined".  This follows the words of the
spec, to be compared with the source computation `genreBuild`. -/
def specLevelName (c0 : Json) (lvl : String) : Option String :=
  match c0.getKey lvl with
  | .ok lv =>
    match lv.getKey "name" with
    | .ok (.str s) => if s = "Undefined" then none else some s
    | _ => none
  | .error _ => none

/-- The included classification level names, in the fixed source order. -/
def specIncludedLevels (c0 : Json) : List String :=
  ["segment", "genre", "subGenre", "type", "subType"].filterMap (specLevelName c0)

/-- The genre string as the spec words describe it: the included level
names joined with a " | " separator. -/
def specGenreJoin (c0 : Json) : String :=
  String.intercalate " | " (specIncludedLevels c0)

/-- The contribution of the four post-segment levels to the genre string:
each included name is preceded by the separator. -/
def joinTail : List String → String
  | [] => ""
  | s :: rest => " | " ++ s ++ joinTail rest

/-- A vendor event carrying every nested field the search mapping reads. -/
def sampleEvent : Json := Json.obj [
  ("id", Json.str "E1"),
  ("name", Json.str "ConcertX"),
  ("dates", Json.obj [("start", Json.obj [("localDate", Json.str "2020-01-01"),
    ("localTime", Json.str "19:00")])]),
  ("images", Json.arr [Json.obj [("url", Json.str "http://img")]]),
  ("classifications", Json.arr [Json.obj [("segment", Json.obj [("name", Json.str "Music")])]]),
  ("_embedded", Json.obj [("venues", Json.arr [Json.obj [("name", Json.str "VenueY")]])])]

/-- The summary the search mapping produces for `sampleEvent`. -/
def sampleEventSummary : Json := Json.obj [
  ("id", Json.str "E1"), ("date", Json.str "2020-01-01"), ("time", Json.str "19:00"),
  ("icon", Json.str "http://img"), ("event", Json.str "ConcertX"),
  ("genre", Json.str "Music"), ("venue", Json.str "VenueY")]

/-- A search payload with a page size and one complete event. -/
def sampleSearchPayload : Json := Json.obj [
  ("page", Json.obj [("size", Json.num 20)]),
  ("_embedded", Json.obj [("events", Json.arr [sampleEvent])])]

/-- A search payload with one complete event but no page object. -/
def noPageSearchPayload : Json := Json.obj [
  ("_embedded", Json.obj [("events", Json.arr [sampleEvent])])]

/-- The first classification of `card1PayloadPrice`: segment Music,
genre Undefined, subGenre Rock. -/
def classMusicRock : Json := Json.obj [
  ("segment", Json.obj [("name", Json.str "Music")]),
  ("genre", Json.obj [("name", Json.str "Undefined")]),
  ("subGenre", Json.obj [("name", Json.str "Rock")])]

/-- A card1 vendor payload with every unguarded field and a first
priceRanges entry of min 20, max 150, currency USD, but no lowercase
`priceranges` key. -/
def card1PayloadPrice : Json := Json.obj [
  ("name", Json.str "ShowZ"),
  ("dates", Json.obj [
    ("start", Json.obj [("localDate", Json.str "2020-02-02")]),
    ("status", Json.obj [("code", Json.str "onsale")])]),
  ("_embedded", Json.obj [("venues", Json.arr [Json.obj [("name", Json.str "VenueQ")]])]),
  ("url", Json.str "http://buy"),
  ("classifications", Json.arr [classMusicRock]),
  ("priceRanges", Json.arr [Json.obj [("min", Json.num 20), ("max", Json.num 150),
    ("currency", Json.str "USD")]])]

/-- The event detail card1 produces for `card1PayloadPrice`: no
price_ranges field at all. -/
def card1RetNoPrice : Json := Json.obj [
  ("title", Json.str "ShowZ"), ("date", Json.str "2020-02-02"),
  ("url", Json.str "http://buy"), ("venue", Json.str "VenueQ"),
  ("genre", Json.str "Music | Rock"),
  ("ticket_status", Json.str "onsale"), ("buy_ticket_at", Json.str "http://buy")]

/-- The same payload with a lowercase `priceranges` key present as well. -/
def card1PayloadBothPrice : Json := Json.obj [
  ("name", Json.str "ShowZ"),
  ("dates", Json.obj [
    ("start", Json.obj [("localDate", Json.str "2020-02-02")]),
    ("status", Json.obj [("code", Json.str "onsale")])]),
  ("_embedded", Json.obj [("venues", Json.arr [Json.obj [("name", Json.str "VenueQ")]])]),
  ("url", Json.str "http://buy"),
  ("classifications", Json.arr [classMusicRock]),
  ("priceranges", Json.arr []),
  ("priceRanges", Json.arr [Json.obj [("min", Json.num 20), ("max", Json.num 150),
    ("currency", Json.str "USD")]])]

/-- The event detail card1 produces for `card1PayloadBothPrice`. -/
def card1RetWithPrice : Json := Json.obj [
  ("title", Json.str "ShowZ"), ("date", Json.str "2020-02-02"),
  ("url", Json.str "http://buy"), ("venue", Json.str "VenueQ"),
  ("genre", Json.str "Music | Rock"), ("price_ranges", Json.str "20-150 USD"),
  ("ticket_status", Json.str "onsale"), ("buy_ticket_at", Json.str "http://buy")]

/-- The first classification of `card1PayloadUndefSeg`: segment name
"Undefined", genre name "Rock". -/
def classUndefSeg : Json := Json.obj [
  ("segment", Json.obj [("name", Json.str "Undefined")]),
  ("genre", Json.obj [("name", Json.str "Rock")])]

/-- A card1 vendor payload whose first classification skips the segment
level (name "Undefined") but includes the genre level. -/
def card1PayloadUndefSeg : Json := Json.obj [
  ("name", Json.str "ShowZ"),
  ("dates", Json.obj [
    ("start", Json.obj [("localDate", Json.str "2020-02-02")]),
    ("status", Json.obj [("code", Json.str "onsale")])]),
  ("_embedded", Json.obj [("venues", Json.arr [Json.obj [("name", Json.str "VenueQ")]])]),
  ("url", Json.str "http://buy"),
  ("classifications", Json.arr [classUndefSeg])]

/-- The event detail card1 produces for `card1PayloadUndefSeg`: its genre
string starts with a stray separator. -/
def card1RetUndefSeg : Json := Json.obj [
  ("title", Json.str "ShowZ"), ("date", Json.str "2020-02-02"),
  ("url", Json.str "http://buy"), ("venue", Json.str "VenueQ"),
  ("genre", Json.str " | Rock"),
  ("ticket_status", Json.str "onsale"), ("buy_ticket_at", Json.str "http://buy")]

/-- The first venue of `sampleVenuePayload`: no images key. -/
def sampleVenue0 : Json := Json.obj [
  ("name", Json.str "HallH"),
  ("address", Json.obj [("line1", Json.str "1 Main St")]),
  ("city", Json.obj [("name", Json.str "Springfield")]),
  ("state", Json.obj [("stateCode", Json.str "CA")]),
  ("postalCode", Json.str "90001"),
  ("url", Json.str "http://venue")]

/-- A card2 vendor payload with one venue that has no images key. -/
def sampleVenuePayload : Json := Json.obj [
  ("_embedded", Json.obj [("venues", Json.arr [sampleVenue0])])]

/-- The venue detail card2 produces for `sampleVenuePayload`. -/
def sampleVenueRet : Json := Json.obj [
  ("venue", Json.str "HallH"), ("logo", Json.str "nologo"),
  ("address", Json.str "1 Main St"), ("city", Json.str "Springfield"),
  ("stateCode", Json.str "CA"), ("postal_code", Json.str "90001"),
  ("url", Json.str "http://venue"),
  ("map", Json.str "https://www.google.com/maps/search/?api=&query=HallH")]

theorem pym_ok_bind {α β : Type} (a : α) (f : α → PyM β) :
    (Except.ok a >>= f : PyM β) = f a := rfl

theorem pym_error_bind {α β : Type} (e : Unit) (f : α → PyM β) :
    (Except.error e >>= f : PyM β) = Except.error e := rfl

theorem pym_bind_ok {α β : Type} {x : PyM α} {f : α → PyM β} {b : β} :
    x >>= f = Except.ok b ↔ ∃ a, x = Except.ok a ∧ f a = Except.ok b := by
  cases x with
  | error e => simp [pym_error_bind]
  | ok a => simp [pym_ok_bind]

theorem pym_pure_ok {α : Type} {a b : α} :
    (pure a : PyM α) = Except.ok b ↔ b = a := by
  constructor
  · intro h
    cases h
    rfl
  · intro h
    cases h
    rfl

theorem pyIf_ok_iff {α : Type} {c : PyM Bool} {x y : PyM α} {v : α} :
    pyIf c x y = Except.ok v ↔
      (c = Except.ok true ∧ x = Except.ok v) ∨ (c = Except.ok false ∧ y = Except.ok v) := by
  cases c with
  | error e => simp [pyIf, pym_error_bind]
  | ok b => cases b <;> simp [pyIf, pym_ok_bind]

theorem searchEvent_ok_inv {e r : Json} (h : searchEvent e = Except.ok r) :
    ∃ idv dates start date timeFields images img0 icon name cls c0 seg genre emb venues v0 venue,
      e.getKey "id" = Except.ok idv ∧
      e.getKey "dates" = Except.ok dates ∧
      dates.getKey "start" = Except.ok start ∧
      start.getKey "localDate" = Except.ok date ∧
      ((start.keysHas "localTime" = Except.ok false ∧ timeFields = ([] : List (String × Json))) ∨
        (∃ t, start.keysHas "localTime" = Except.ok true ∧ start.getKey "localTime" = Except.ok t ∧
          timeFields = [("time", t)])) ∧
      e.getKey "images" = Except.ok images ∧
      images.getIdx 0 = Except.ok img0 ∧
      img0.getKey "url" = Except.ok icon ∧
      e.getKey "name" = Except.ok name ∧
      e.getKey "classifications" = Except.ok cls ∧
      cls.getIdx 0 = Except.ok c0 ∧
      c0.getKey "segment" = Except.ok seg ∧
      seg.getKey "name" = Except.ok genre ∧
      e.getKey "_embedded" = Except.ok emb ∧
      emb.getKey "venues" = Except.ok venues ∧
      venues.getIdx 0 = Except.ok v0 ∧
      v0.getKey "name" = Except.ok venue ∧
      r = Json.obj ([("id", idv), ("date", date)] ++ timeFields
        ++ [("icon", icon), ("event", name), ("genre", genre), ("venue", venue)]) := by
  simp only [searchEvent, pym_bind_ok, pym_pure_ok, pyIf_ok_iff] at h
  obtain ⟨idv, h1, dates, h2, start, h3, date, h4, tf, htf, images, h5, img0, h6, icon, h7,
    name, h8, cls, h9, c0, h10, seg, h11, genre, h12, emb, h13, venues, h14, v0, h15,
    venue, h16, hr⟩ := h
  refine ⟨idv, dates, start, date, tf, images, img0, icon, name, cls, c0, seg, genre,
    emb, venues, v0, venue, h1, h2, h3, h4, ?_, h5, h6, h7, h8, h9, h10, h11, h12, h13,
    h14, h15, h16, hr⟩
  rcases htf with ⟨hc, t, ht, htf⟩ | ⟨hc, htf⟩
  · exact Or.inr ⟨t, hc, ht, htf⟩
  · exact Or.inl ⟨hc, htf⟩

theorem mapEvents_length_and_get : ∀ {l out : List Json}, mapEvents l = Except.ok out →
    out.length = l.length ∧ ∀ i (h1 : i < l.length) (h2 : i < out.length),
      searchEvent (l.get ⟨i, h1⟩) = Except.ok (out.get ⟨i, h2⟩) := by
  intro l
  induction l with
  | nil =>
    intro out h
    simp only [mapEvents] at h
    cases h
    exact ⟨rfl, fun i h1 _ => absurd h1 (Nat.not_lt_zero i)⟩
  | cons e rest ih =>
    intro out h
    simp only [mapEvents, pym_bind_ok, pym_pure_ok] at h
    obtain ⟨r, hr, rs, hrs, hout⟩ := h
    subst hout
    obtain ⟨hlen, hget⟩ := ih hrs
    refine ⟨by simp [hlen], ?_⟩
    intro i h1 h2
    cases i with
    | zero => exact hr
    | succ n =>
      exact hget n (Nat.lt_of_succ_lt_succ h1) (Nat.lt_of_succ_lt_succ h2)

theorem mapEvents_ok_of_all : ∀ {l : List Json}, (∀ e ∈ l, ∃ r, searchEvent e = Except.ok r) →
    ∃ out, mapEvents l = Except.ok out := by
  intro l
  induction l with
  | nil => exact fun _ => ⟨[], rfl⟩
  | cons e rest ih =>
    intro h
    obtain ⟨r, hr⟩ := h e (List.mem_cons_self e rest)
    obtain ⟨rs, hrs⟩ := ih fun x hx => h x (List.mem_cons_of_mem e hx)
    exact ⟨r :: rs, by simp only [mapEvents, pym_bind_ok, pym_pure_ok]; exact ⟨r, hr, rs, hrs, rfl⟩⟩

theorem mapEvents_mem : ∀ {l out : List Json}, mapEvents l = Except.ok out →
    ∀ r ∈ out, ∃ e ∈ l, searchEvent e = Except.ok r := by
  intro l
  induction l with
  | nil =>
    intro out h
    simp only [mapEvents] at h
    cases h
    intro r hr
    exact absurd hr (List.not_mem_nil r)
  | cons e rest ih =>
    intro out h
    simp only [mapEvents, pym_bind_ok, pym_pure_ok] at h
    obtain ⟨r, hr, rs, hrs, hout⟩ := h
    subst hout
    intro x hx
    rcases List.mem_cons.mp hx with hx | hx
    · exact ⟨e, List.mem_cons_self e rest, hx ▸ hr⟩
    · obtain ⟨e2, he2, hse⟩ := ih hrs x hx
      exact ⟨e2, List.mem_cons_of_mem e he2, hse⟩

theorem pyIf_true {α : Type} {c : PyM Bool} (h : c = Except.ok true) (x y : PyM α) :
    pyIf c x y = x := by
  rw [pyIf, h, pym_ok_bind]
  rfl

theorem pyIf_false {α : Type} {c : PyM Bool} (h : c = Except.ok false) (x y : PyM α) :
    pyIf c x y = y := by
  rw [pyIf, h, pym_ok_bind]
  rfl

theorem keysHas_true_of_getKey_ok {d : Json} {k : String} {v : Json}
    (h : d.getKey k = Except.ok v) : d.keysHas k = Except.ok true := by
  cases d <;> simp only [Json.getKey] at h
  case obj fs =>
    cases hl : fs.lookup k with
    | none => rw [hl] at h; cases h
    | some w => simp [Json.keysHas, hl]
  all_goals cases h

theorem lookup_append {β : Type} (l1 l2 : List (String × β)) (k : String) :
    (l1 ++ l2).lookup k = ((l1.lookup k).orElse fun _ => l2.lookup k) := by
  induction l1 with
  | nil => simp [List.lookup]
  | cons kv rest ih =>
    cases h : k == kv.1 <;> simp [List.lookup, h, ih]

theorem search_ok_inv {d r : Json} (h : search d = HResult.ok r) :
    searchM d = Except.ok r := by
  unfold search at h
  cases hm : searchM d with
  | ok v =>
    rw [hm] at h
    injection h with h
    rw [h]
  | error e =>
    rw [hm] at h
    exact HResult.noConfusion h

theorem card1_ok_inv {d r : Json} (h : card1 d = HResult.ok r) :
    card1M d = Except.ok (some r) := by
  unfold card1 at h
  cases hm : card1M d with
  | ok o =>
    cases o with
    | some v =>
      rw [hm] at h
      injection h with h
      rw [h]
    | none =>
      rw [hm] at h
      exact HResult.noConfusion h
  | error e =>
    rw [hm] at h
    exact HResult.noConfusion h

theorem card2_ok_inv {d r : Json} (h : card2 d = HResult.ok r) :
    card2M d = Except.ok (some r) := by
  unfold card2 at h
  cases hm : card2M d with
  | ok o =>
    cases o with
    | some v =>
      rw [hm] at h
      injection h with h
      rw [h]
    | none =>
      rw [hm] at h
      exact HResult.noConfusion h
  | error e =>
    rw [hm] at h
    exact HResult.noConfusion h

/-- C5: for every geoHash query value, the outbound vendor query carries a
geoPoint equal to the first 6 characters when the input has length at
least 6, and the unchanged input when it is shorter. -/
theorem C5_geohash_truncation (keyword distance segmentID geoHash : String) :
    search_request_url keyword distance segmentID geoHash
      = search_url_head keyword distance segmentID ++ geoHash.take 6 ∧
    (geoHash.length ≥ 6 →
      (geoHash.take 6).data = geoHash.data.take 6 ∧ (geoHash.take 6).length = 6) ∧
    (geoHash.length < 6 → geoHash.take 6 = geoHash) := by
  refine ⟨rfl, fun h => ⟨String.data_take geoHash 6, ?_⟩, fun h => ?_⟩
  · have hd : (geoHash.take 6).data = geoHash.data.take 6 := String.data_take geoHash 6
    rw [← String.length_data (geoHash.take 6), hd, List.length_take,
      String.length_data geoHash]
    exact Nat.min_eq_left h
  · rw [String.take_eq]
    have hle : geoHash.data.take 6 = geoHash.data :=
      List.take_of_length_le (by rw [String.length_data geoHash]; exact Nat.le_of_lt h)
    rw [hle]

/-- C5 witness: a geohash of length 8 is cut to its first 6 characters,
and a geohash of length 3 is forwarded unchanged. -/
theorem C5_geohash_truncation_witness :
    ("9q8yyk8y" : String).length ≥ 6 ∧
    ("9q8yyk8y" : String).take 6 = "9q8yyk" ∧
    ("9q8" : String).length < 6 ∧
    ("9q8" : String).take 6 = "9q8" := by
  refine ⟨by decide, ?_, by decide, (C5_geohash_truncation "a" "b" "c" "9q8").2.2 (by decide)⟩
  have h := (C5_geohash_truncation "a" "b" "c" "9q8yyk8y").2.1 (by decide)
  exact String.ext (h.1.trans (by decide))

/-- C1 counterexample: the payload with no keys at all has no `_embedded`
key, yet the search handler raises an uncaught KeyError on `page` instead
of returning the sentinel, so the claim fails as universally stated. -/
theorem C1_counterexample :
    (Json.obj []).keysHas "_embedded" = Except.ok false ∧
    search (Json.obj []) = HResult.fault ∧
    search (Json.obj []) ≠ HResult.ok (Json.obj [("events", Json.num 0)]) := by
  refine ⟨rfl, rfl, ?_⟩
  intro h
  exact HResult.noConfusion h

/-- C1 (amended): for every vendor payload that also carries a page object
with a size key, the absence of `_embedded` makes the search handler
return exactly the sentinel object with `events` bound to the number 0. -/
theorem C1_amended_no_embedded_sentinel (d p s : Json)
    (hp : d.getKey "page" = Except.ok p)
    (hs : p.getKey "size" = Except.ok s)
    (he : d.keysHas "_embedded" = Except.ok false) :
    search d = HResult.ok (Json.obj [("events", Json.num 0)]) := by
  have hM : searchM d = Except.ok (Json.obj [("events", Json.num 0)]) := by
    simp only [searchM, hp, pym_ok_bind, hs, pyIf_false he]
    rfl
  unfold search
  rw [hM]

/-- C1 witness: a payload with a page size and no `_embedded` key. -/
theorem C1_amended_no_embedded_sentinel_witness :
    (Json.obj [("page", Json.obj [("size", Json.num 20)])]).getKey "page"
      = Except.ok (Json.obj [("size", Json.num 20)]) ∧
    (Json.obj [("size", Json.num 20)]).getKey "size" = Except.ok (Json.num 20) ∧
    (Json.obj [("page", Json.obj [("size", Json.num 20)])]).keysHas "_embedded"
      = Except.ok false ∧
    search (Json.obj [("page", Json.obj [("size", Json.num 20)])])
      = HResult.ok (Json.obj [("events", Json.num 0)]) :=
  ⟨rfl, rfl, rfl,
    C1_amended_no_embedded_sentinel (Json.obj [("page", Json.obj [("size", Json.num 20)])])
      (Json.obj [("size", Json.num 20)]) (Json.num 20) rfl rfl rfl⟩

/-- C10: the search handler evaluates `data[page][size]` before the
`_embedded` presence check — whenever that double read raises, the whole
request faults regardless of `_embedded`, and any non-fault return
(in particular the sentinel) requires the page size to exist. -/
theorem C10_page_size_read_dominates (d : Json) :
    ((d.getKey "page" >>= fun p => p.getKey "size") = Except.error () →
      search d = HResult.fault) ∧
    (∀ r, search d = HResult.ok r →
      ∃ p s, d.getKey "page" = Except.ok p ∧ p.getKey "size" = Except.ok s) := by
  cases hp : d.getKey "page" with
  | error e =>
    cases e
    have hM : searchM d = Except.error () := by
      simp only [searchM, hp, pym_error_bind]
    constructor
    · intro _
      unfold search
      rw [hM]
    · intro r hr
      unfold search at hr
      rw [hM] at hr
      exact HResult.noConfusion hr
  | ok p =>
    cases hs : p.getKey "size" with
    | error e =>
      cases e
      have hM : searchM d = Except.error () := by
        simp only [searchM, hp, pym_ok_bind, hs, pym_error_bind]
      constructor
      · intro _
        unfold search
        rw [hM]
      · intro r hr
        unfold search at hr
        rw [hM] at hr
        exact HResult.noConfusion hr
    | ok s =>
      constructor
      · intro hcontra
        exfalso
        simp only [hp, pym_ok_bind, hs] at hcontra
        exact Except.noConfusion hcontra
      · intro r _
        exact ⟨p, s, rfl, hs⟩

/-- C10 witness: a payload without a page object faults, and the sentinel
return of a payload with a page size exhibits the required reads. -/
theorem C10_page_size_read_dominates_witness :
    ((Json.obj [("foo", Json.num 1)]).getKey "page" >>= fun p => p.getKey "size")
      = Except.error () ∧
    search (Json.obj [("foo", Json.num 1)]) = HResult.fault ∧
    (∃ p s, (Json.obj [("page", Json.obj [("size", Json.num 7)])]).getKey "page"
        = Except.ok p ∧ p.getKey "size" = Except.ok s) :=
  ⟨rfl, (C10_page_size_read_dominates (Json.obj [("foo", Json.num 1)])).1 rfl,
    (C10_page_size_read_dominates (Json.obj [("page", Json.obj [("size", Json.num 7)])])).2
      (Json.obj [("events", Json.num 0)]) rfl⟩

/-- C6: for every vendor payload that is a JSON object without a `name`
key, the card1 handler falls off the end of the Python function and
produces the implicit None rather than any explicit response body. -/
theorem C6_card1_no_name_implicit_none (d : Json)
    (h : d.keysHas "name" = Except.ok false) :
    card1 d = HResult.implicitNone := by
  have hM : card1M d = Except.ok none := by
    simp only [card1M, h, pym_ok_bind]
    rfl
  unfold card1
  rw [hM]

/-- C6 witness: a payload with keys but no `name` key. -/
theorem C6_card1_no_name_implicit_none_witness :
    (Json.obj [("id", Json.str "x")]).keysHas "name" = Except.ok false ∧
    card1 (Json.obj [("id", Json.str "x")]) = HResult.implicitNone :=
  ⟨rfl, C6_card1_no_name_implicit_none (Json.obj [("id", Json.str "x")]) rfl⟩

theorem card1M_ok_inv {d r : Json} (h : card1M d = Except.ok (some r)) :
    ∃ title dates start date timeFields emb artistFields url venues v0 venue cls c0 g
      priceFields st statusCode seatFields,
      d.keysHas "name" = Except.ok true ∧
      d.getKey "name" = Except.ok title ∧
      d.getKey "dates" = Except.ok dates ∧
      dates.getKey "start" = Except.ok start ∧
      start.getKey "localDate" = Except.ok date ∧
      ((start.keysHas "localTime" = Except.ok false ∧
          timeFields = ([] : List (String × Json))) ∨
        (∃ t, start.keysHas "localTime" = Except.ok true ∧
          start.getKey "localTime" = Except.ok t ∧ timeFields = [("time", t)])) ∧
      d.getKey "_embedded" = Except.ok emb ∧
      ((emb.keysHas "attractions" = Except.ok false ∧
          artistFields = ([] : List (String × Json))) ∨
        (∃ an, emb.keysHas "attractions" = Except.ok true ∧
          artistFields = [("artist_team", an)])) ∧
      d.getKey "url" = Except.ok url ∧
      emb.getKey "venues" = Except.ok venues ∧
      venues.getIdx 0 = Except.ok v0 ∧
      v0.getKey "name" = Except.ok venue ∧
      d.getKey "classifications" = Except.ok cls ∧
      cls.getIdx 0 = Except.ok c0 ∧
      genreBuild c0 = Except.ok g ∧
      ((d.keysHas "priceranges" = Except.ok false ∧
          priceFields = ([] : List (String × Json))) ∨
        (d.keysHas "priceranges" = Except.ok true ∧
          ∃ p, priceFields = [("price_ranges", p)])) ∧
      dates.getKey "status" = Except.ok st ∧
      st.getKey "code" = Except.ok statusCode ∧
      ((d.keysHas "seatmap" = Except.ok false ∧
          seatFields = ([] : List (String × Json))) ∨
        (d.keysHas "seatmap" = Except.ok true ∧
          ∃ su, seatFields = [("seat_map", su)])) ∧
      r = Json.obj [("card1", Json.arr [Json.obj
        ([("title", title), ("date", date)] ++ timeFields ++ artistFields
          ++ [("url", url), ("venue", venue), ("genre", Json.str g)] ++ priceFields
          ++ [("ticket_status", statusCode), ("buy_ticket_at", url)] ++ seatFields)])] := by
  simp only [card1M, pym_bind_ok] at h
  obtain ⟨hasName, h1, h2⟩ := h
  cases hasName with
  | false =>
    simp only [Bool.false_eq_true, if_false, pym_pure_ok] at h2
    exact Option.noConfusion h2
  | true =>
    simp only [if_true, pym_bind_ok, pym_pure_ok, pyIf_ok_iff, Option.some.injEq] at h2
    obtain ⟨title, ht, dates, hd, start, hst, date, hdt, tf, htf, emb, he, af, haf,
      url, hu, venues, hv, v0, hv0, venue, hven, cls, hc, c0, hc0, g, hg,
      pf, hpf, st, hsts, statusCode, hsc, sf, hsf, hr⟩ := h2
    refine ⟨title, dates, start, date, tf, emb, af, url, venues, v0, venue, cls, c0, g,
      pf, st, statusCode, sf, h1, ht, hd, hst, hdt, ?_, he, ?_, hu, hv, hv0, hven,
      hc, hc0, hg, ?_, hsts, hsc, ?_, hr⟩
    · rcases htf with ⟨hcnd, t, htt, htfv⟩ | ⟨hcnd, htfv⟩
      · exact Or.inr ⟨t, hcnd, htt, htfv⟩
      · exact Or.inl ⟨hcnd, htfv⟩
    · rcases haf with ⟨hcnd, attrs, ha1, a0, ha2, an, ha3, hafv⟩ | ⟨hcnd, hafv⟩
      · exact Or.inr ⟨an, hcnd, hafv⟩
      · exact Or.inl ⟨hcnd, hafv⟩
    · rcases hpf with ⟨hcnd, pr, hp1, p0, hp2, mn, hp3, mx, hp4, cur, hp5, curS, hp6, hpfv⟩
        | ⟨hcnd, hpfv⟩
      · exact Or.inr ⟨hcnd, _, hpfv⟩
      · exact Or.inl ⟨hcnd, hpfv⟩
    · rcases hsf with ⟨hcnd, sm, hs1, su, hs2, hsfv⟩ | ⟨hcnd, hsfv⟩
      · exact Or.inr ⟨hcnd, su, hsfv⟩
      · exact Or.inl ⟨hcnd, hsfv⟩

theorem card2M_ok_inv {d r : Json} (h : card2M d = Except.ok (some r)) :
    ∃ emb venues v0 vname logo addressFields cityFields stateFields postalFields urlFields
      vnameS,
      d.keysHas "_embedded" = Except.ok true ∧
      d.getKey "_embedded" = Except.ok emb ∧
      emb.getKey "venues" = Except.ok venues ∧
      venues.getIdx 0 = Except.ok v0 ∧
      v0.getKey "name" = Except.ok vname ∧
      ((v0.keysHas "images" = Except.ok false ∧ logo = Json.str "nologo") ∨
        (v0.keysHas "images" = Except.ok true ∧
          (v0.getKey "images" >>= fun im => im.getIdx 0 >>= fun i0 => i0.getKey "url")
            = Except.ok logo)) ∧
      ((v0.keysHas "address" = Except.ok false ∧
          addressFields = ([] : List (String × Json))) ∨
        (v0.keysHas "address" = Except.ok true ∧
          ∃ l1, addressFields = [("address", l1)])) ∧
      ((Json.pyIn "city" v0 = Except.ok false ∧ cityFields = ([] : List (String × Json))) ∨
        (Json.pyIn "city" v0 = Except.ok true ∧ ∃ cn, cityFields = [("city", cn)])) ∧
      (((v0.keysHas "state" = Except.ok false ∨
            (v0.getKey "state" >>= fun stv => stv.keysHas "stateCode") = Except.ok false) ∧
          stateFields = ([] : List (String × Json))) ∨
        (v0.keysHas "state" = Except.ok true ∧
          (v0.getKey "state" >>= fun stv => stv.keysHas "stateCode") = Except.ok true ∧
          ∃ sc, stateFields = [("stateCode", sc)])) ∧
      ((v0.keysHas "postalCode" = Except.ok false ∧
          postalFields = ([] : List (String × Json))) ∨
        (v0.keysHas "postalCode" = Except.ok true ∧
          ∃ pc, postalFields = [("postal_code", pc)])) ∧
      ((v0.keysHas "url" = Except.ok false ∧ urlFields = ([] : List (String × Json))) ∨
        (v0.keysHas "url" = Except.ok true ∧ ∃ u, urlFields = [("url", u)])) ∧
      vname.asString = Except.ok vnameS ∧
      r = Json.obj ([("venue", vname), ("logo", logo)] ++ addressFields ++ cityFields
        ++ stateFields ++ postalFields ++ urlFields
        ++ [("map", Json.str ("https://www.google.com/maps/search/?api=" ++ google_api
              ++ "&query=" ++ vnameS))]) := by
  simp only [card2M, pym_bind_ok] at h
  obtain ⟨hasEmb, h1, h2⟩ := h
  cases hasEmb with
  | false =>
    simp only [Bool.false_eq_true, if_false, pym_pure_ok] at h2
    exact Option.noConfusion h2
  | true =>
    simp only [if_true, pym_bind_ok, pym_pure_ok, pyIf_ok_iff, Option.some.injEq] at h2
    obtain ⟨emb, he, venues, hv, v0, hv0, vname, hvn, logo, hlogo, af, haf, cf, hcf,
      sf, hsf, pfl, hpfl, uf, huf, vnameS, hvs, hr⟩ := h2
    refine ⟨emb, venues, v0, vname, logo, af, cf, sf, pfl, uf, vnameS,
      h1, he, hv, hv0, hvn, ?_, ?_, ?_, ?_, ?_, ?_, hvs, hr⟩
    · rcases hlogo with ⟨hcnd, imgs, hi1, i0, hi2, hi3⟩ | ⟨hcnd, hl⟩
      · refine Or.inr ⟨hcnd, ?_⟩
        simp only [hi1, pym_ok_bind, hi2, hi3]
      · exact Or.inl ⟨hcnd, hl⟩
    · rcases haf with ⟨hcnd, ad, ha1, l1, ha2, hafv⟩ | ⟨hcnd, hafv⟩
      · exact Or.inr ⟨hcnd, l1, hafv⟩
      · exact Or.inl ⟨hcnd, hafv⟩
    · rcases hcf with ⟨hcnd, c, hc1, cn, hc2, hcfv⟩ | ⟨hcnd, hcfv⟩
      · exact Or.inr ⟨hcnd, cn, hcfv⟩
      · exact Or.inl ⟨hcnd, hcfv⟩
    · rcases hsf with ⟨hcnd, hin⟩ | ⟨hcnd, hsfv⟩
      · rcases hin with ⟨hin, stv2, hs1, sc, hs2, hsfv⟩ | ⟨hin, hsfv⟩
        · rcases hin with ⟨stv, hst1, hst2⟩
          refine Or.inr ⟨hcnd, ?_, sc, hsfv⟩
          simp only [hst1, pym_ok_bind, hst2]
        · rcases hin with ⟨stv, hst1, hst2⟩
          refine Or.inl ⟨Or.inr ?_, hsfv⟩
          simp only [hst1, pym_ok_bind, hst2]
      · exact Or.inl ⟨Or.inl hcnd, hsfv⟩
    · rcases hpfl with ⟨hcnd, pc, hp1, hpflv⟩ | ⟨hcnd, hpflv⟩
      · exact Or.inr ⟨hcnd, pc, hpflv⟩
      · exact Or.inl ⟨hcnd, hpflv⟩
    · rcases huf with ⟨hcnd, u, hu1, hufv⟩ | ⟨hcnd, hufv⟩
      · exact Or.inr ⟨hcnd, u, hufv⟩
      · exact Or.inl ⟨hcnd, hufv⟩

theorem genreStep_absent {c0 : Json} {lvl : String} (h : c0.keysHas lvl = Except.ok false)
    (sep g : String) : genreStep c0 lvl sep g = Except.ok g := by
  unfold genreStep
  rw [pyIf_false h]
  rfl

theorem genreStep_read {c0 lv : Json} {lvl : String} {s : String}
    (hk : c0.getKey lvl = Except.ok lv) (hn : lv.getKey "name" = Except.ok (Json.str s))
    (sep g : String) :
    genreStep c0 lvl sep g = Except.ok (if s = "Undefined" then g else g ++ sep ++ s) := by
  unfold genreStep
  rw [pyIf_true (keysHas_true_of_getKey_ok hk)]
  simp only [hk, pym_ok_bind, hn, Json.isUndef]
  by_cases hu : s = "Undefined"
  · simp [hu, pym_pure_ok]
  · simp [hu, Json.asString, pym_ok_bind, pym_pure_ok]

theorem specLevelName_absent {c0 : Json} {lvl : String}
    (h : c0.keysHas lvl = Except.ok false) : specLevelName c0 lvl = none := by
  cases c0 with
  | obj fs =>
    simp only [Json.keysHas, Except.ok.injEq] at h
    unfold specLevelName
    cases hl : fs.lookup lvl with
    | none => simp [Json.getKey, hl]
    | some v =>
      rw [hl] at h
      simp at h
  | null => exact absurd h (by simp [Json.keysHas])
  | bool b => exact absurd h (by simp [Json.keysHas])
  | num n => exact absurd h (by simp [Json.keysHas])
  | str s => exact absurd h (by simp [Json.keysHas])
  | arr es => exact absurd h (by simp [Json.keysHas])

theorem specLevelName_read {c0 lv : Json} {lvl : String} {s : String}
    (hk : c0.getKey lvl = Except.ok lv) (hn : lv.getKey "name" = Except.ok (Json.str s)) :
    specLevelName c0 lvl = if s = "Undefined" then none else some s := by
  simp only [specLevelName, hk, hn]

theorem genreStep_spec {c0 : Json} {lvl : String}
    (h : c0.keysHas lvl = Except.ok false ∨
      ∃ lv s, c0.getKey lvl = Except.ok lv ∧ lv.getKey "name" = Except.ok (Json.str s))
    (sep : String) :
    ∀ g, genreStep c0 lvl sep g = Except.ok (g ++ match specLevelName c0 lvl with
      | some s => sep ++ s
      | none => "") := by
  intro g
  rcases h with h | ⟨lv, s, hk, hn⟩
  · rw [genreStep_absent h, specLevelName_absent h]
    simp
  · rw [genreStep_read hk hn, specLevelName_read hk hn]
    by_cases hu : s = "Undefined"
    · simp [hu]
    · simp [hu, String.append_assoc]

theorem genreBuild_join {c0 : Json} {segName : String}
    (hseg : ∃ sg, c0.getKey "segment" = Except.ok sg ∧
      sg.getKey "name" = Except.ok (Json.str segName))
    (hsegU : segName ≠ "Undefined")
    (hlvls : ∀ lvl ∈ ["genre", "subGenre", "type", "subType"],
      c0.keysHas lvl = Except.ok false ∨
      ∃ lv s, c0.getKey lvl = Except.ok lv ∧ lv.getKey "name" = Except.ok (Json.str s)) :
    genreBuild c0 = Except.ok (specGenreJoin c0) := by
  obtain ⟨sg, hk, hn⟩ := hseg
  have hsegL : specLevelName c0 "segment" = some segName := by
    rw [specLevelName_read hk hn]
    simp [hsegU]
  have hstep0 : genreStep c0 "segment" "" "" = Except.ok segName := by
    rw [genreStep_read hk hn]
    simp [hsegU]
  have h1 := genreStep_spec (hlvls "genre" (by simp)) " | "
  have h2 := genreStep_spec (hlvls "subGenre" (by simp)) " | "
  have h3 := genreStep_spec (hlvls "type" (by simp)) " | "
  have h4 := genreStep_spec (hlvls "subType" (by simp)) " | "
  simp only [genreBuild, hstep0, pym_ok_bind, h1, h2, h3, h4, Except.ok.injEq]
  rcases hA : specLevelName c0 "genre" with _ | s1 <;>
    rcases hB : specLevelName c0 "subGenre" with _ | s2 <;>
      rcases hC : specLevelName c0 "type" with _ | s3 <;>
        rcases hD : specLevelName c0 "subType" with _ | s4 <;>
          simp [specGenreJoin, specIncludedLevels, List.filterMap, hsegL, hA, hB, hC, hD,
            String.intercalate, String.intercalate.go, String.append_assoc]

theorem card1_ret_find_genre {title date url venue statusCode : Json} {g : String}
    {tf af pf sf : List (String × Json)}
    (htf : tf = [] ∨ ∃ t, tf = [("time", t)])
    (haf : af = [] ∨ ∃ an, af = [("artist_team", an)]) :
    (Json.obj ([("title", title), ("date", date)] ++ tf ++ af
      ++ [("url", url), ("venue", venue), ("genre", Json.str g)] ++ pf
      ++ [("ticket_status", statusCode), ("buy_ticket_at", url)] ++ sf)).find "genre"
      = some (Json.str g) := by
  rcases htf with h1 | ⟨t, h1⟩ <;> rcases haf with h2 | ⟨an, h2⟩ <;> subst h1 <;> subst h2 <;>
    simp [Json.find, List.lookup]

/-- C3 counterexample: with segment name "Undefined" and genre name
"Rock", the claimed separator-join of the included levels is "Rock", but
the handler returns the genre string " | Rock" with a leading separator,
so the general join claim fails. -/
theorem C3_counterexample :
    specGenreJoin classUndefSeg = "Rock" ∧
    card1 card1PayloadUndefSeg
      = HResult.ok (Json.obj [("card1", Json.arr [card1RetUndefSeg])]) ∧
    card1RetUndefSeg.find "genre" = some (Json.str " | Rock") ∧
    (" | Rock" : String) ≠ "Rock" := by
  exact ⟨rfl, rfl, rfl, by decide⟩

/-- C3 (amended): whenever card1 returns a value, the segment level is
itself included (present with a string name other than "Undefined"), and
every later level that is present carries a string name, the returned
genre string is exactly the " | "-join of the included level names in
the fixed order segment, genre, subGenre, type, subType, with no double
separator; when the segment level is skipped but a later level is
included, the code instead emits a leading " | " (see the
counterexample). -/
theorem C3_amended_genre_join (d r c0 : Json) (segName : String)
    (hok : card1 d = HResult.ok r)
    (hcls : (d.getKey "classifications" >>= fun cs => cs.getIdx 0) = Except.ok c0)
    (hseg : ∃ sg, c0.getKey "segment" = Except.ok sg ∧
      sg.getKey "name" = Except.ok (Json.str segName))
    (hsegU : segName ≠ "Undefined")
    (hlvls : ∀ lvl ∈ ["genre", "subGenre", "type", "subType"],
      c0.keysHas lvl = Except.ok false ∨
      ∃ lv s, c0.getKey lvl = Except.ok lv ∧ lv.getKey "name" = Except.ok (Json.str s)) :
    ∃ ret, r = Json.obj [("card1", Json.arr [ret])] ∧
      ret.find "genre" = some (Json.str (specGenreJoin c0)) := by
  obtain ⟨title, dates, start, date, tf, emb, af, url, venues, v0, venue, cls, c0x, g,
    pf, st, sc, sf, hname, ht, hd, hst, hdt, htf, he, haf, hu, hv, hv0, hven, hc, hc0,
    hg, hpf, hsts, hsc2, hsf, hr⟩ := card1M_ok_inv (card1_ok_inv hok)
  have hceq : c0x = c0 := by
    simp only [hc, pym_ok_bind, hc0, Except.ok.injEq] at hcls
    exact hcls
  subst hceq
  have hjoin := genreBuild_join hseg hsegU hlvls
  rw [hg] at hjoin
  injection hjoin with hgeq
  subst hgeq
  refine ⟨_, hr, ?_⟩
  refine card1_ret_find_genre ?_ ?_
  · rcases htf with ⟨_, h⟩ | ⟨t, _, _, h⟩
    · exact Or.inl h
    · exact Or.inr ⟨t, h⟩
  · rcases haf with ⟨_, h⟩ | ⟨an, _, h⟩
    · exact Or.inl h
    · exact Or.inr ⟨an, h⟩

/-- C3 witness: the payload with segment Music, genre Undefined, subGenre
Rock yields the genre string "Music | Rock". -/
theorem C3_amended_genre_join_witness :
    card1 card1PayloadPrice = HResult.ok (Json.obj [("card1", Json.arr [card1RetNoPrice])]) ∧
    specGenreJoin classMusicRock = "Music | Rock" ∧
    (∃ ret, Json.obj [("card1", Json.arr [card1RetNoPrice])]
        = Json.obj [("card1", Json.arr [ret])] ∧
      ret.find "genre" = some (Json.str (specGenreJoin classMusicRock))) := by
  refine ⟨rfl, rfl, C3_amended_genre_join card1PayloadPrice
    (Json.obj [("card1", Json.arr [card1RetNoPrice])]) classMusicRock "Music" rfl rfl
    ⟨Json.obj [("name", Json.str "Music")], rfl, rfl⟩ (by decide) ?_⟩
  intro lvl hl
  simp only [List.mem_cons, List.not_mem_nil, or_false] at hl
  rcases hl with rfl | rfl | rfl | rfl
  · exact Or.inr ⟨Json.obj [("name", Json.str "Undefined")], "Undefined", rfl, rfl⟩
  · exact Or.inr ⟨Json.obj [("name", Json.str "Rock")], "Rock", rfl, rfl⟩
  · exact Or.inl rfl
  · exact Or.inl rfl

/-- C2: the presence guard tests the lowercase key `priceranges` while the
read uses `priceRanges`, so a payload whose price data sits under
`priceRanges` alone — the vendor casing — yields a detail with no price
field at all; only when the lowercase key is also present does the detail
carry the claimed "20-150 USD". -/
theorem C2_price_range_guard_mismatch :
    card1PayloadPrice.find "priceranges" = none ∧
    card1PayloadPrice.find "priceRanges"
      = some (Json.arr [Json.obj [("min", Json.num 20), ("max", Json.num 150),
          ("currency", Json.str "USD")]]) ∧
    card1 card1PayloadPrice = HResult.ok (Json.obj [("card1", Json.arr [card1RetNoPrice])]) ∧
    card1RetNoPrice.find "price_ranges" = none ∧
    card1 card1PayloadBothPrice
      = HResult.ok (Json.obj [("card1", Json.arr [card1RetWithPrice])]) ∧
    card1RetWithPrice.find "price_ranges" = some (Json.str "20-150 USD") :=
  ⟨rfl, rfl, rfl, rfl, rfl, rfl⟩

/-- C9: whenever the card1 handler returns a value, the payload had a name
key and the value is an object binding "card1" to a one-element list
around the event detail. -/
theorem C9_card1_single_element_list (d r : Json) (h : card1 d = HResult.ok r) :
    d.keysHas "name" = Except.ok true ∧
    ∃ ret, r = Json.obj [("card1", Json.arr [ret])] := by
  obtain ⟨title, dates, start, date, tf, emb, af, url, venues, v0, venue, cls, c0, g,
    pf, st, sc, sf, hname, _, _, _, _, _, _, _, _, _, _, _, _, _, _, _, _, _, _, hr⟩ :=
    card1M_ok_inv (card1_ok_inv h)
  exact ⟨hname, _, hr⟩

/-- C9 witness: a complete card1 payload. -/
theorem C9_card1_single_element_list_witness :
    card1 card1PayloadBothPrice
      = HResult.ok (Json.obj [("card1", Json.arr [card1RetWithPrice])]) ∧
    (card1PayloadBothPrice.keysHas "name" = Except.ok true ∧
      ∃ ret, Json.obj [("card1", Json.arr [card1RetWithPrice])]
        = Json.obj [("card1", Json.arr [ret])]) :=
  ⟨rfl, C9_card1_single_element_list card1PayloadBothPrice
    (Json.obj [("card1", Json.arr [card1RetWithPrice])]) rfl⟩

/-- C8: whenever the card2 handler returns a value and the first embedded
venue has no images key, the returned logo field is the literal
"nologo". -/
theorem C8_card2_logo_default (d r v0 : Json)
    (hok : card2 d = HResult.ok r)
    (hv0 : (d.getKey "_embedded" >>= fun em => em.getKey "venues" >>= fun vs =>
      vs.getIdx 0) = Except.ok v0)
    (hni : v0.keysHas "images" = Except.ok false) :
    r.find "logo" = some (Json.str "nologo") := by
  obtain ⟨emb, venues, w0, vname, logo, af, cf, sf, pfl, uf, vnameS, h1, he, hv, hw0,
    hvn, hlogo, _, _, _, _, _, hvs, hr⟩ := card2M_ok_inv (card2_ok_inv hok)
  have hweq : w0 = v0 := by
    simp only [he, pym_ok_bind, hv, hw0, Except.ok.injEq] at hv0
    exact hv0
  subst hweq
  rcases hlogo with ⟨_, hl⟩ | ⟨hcnd, _⟩
  · subst hl
    subst hr
    simp [Json.find, List.lookup]
  · rw [hni] at hcnd
    injection hcnd with hb
    exact Bool.noConfusion hb

/-- C8 witness: a venue payload whose first venue has no images key. -/
theorem C8_card2_logo_default_witness :
    card2 sampleVenuePayload = HResult.ok sampleVenueRet ∧
    (sampleVenuePayload.getKey "_embedded" >>= fun em => em.getKey "venues" >>= fun vs =>
      vs.getIdx 0) = Except.ok sampleVenue0 ∧
    sampleVenue0.keysHas "images" = Except.ok false ∧
    sampleVenueRet.find "logo" = some (Json.str "nologo") :=
  ⟨rfl, rfl, rfl, C8_card2_logo_default sampleVenuePayload sampleVenueRet sampleVenue0
    rfl rfl rfl⟩

/-- C4 counterexample: a payload carrying an embedded-events list with one
complete event but no page object faults on the unconditional
`data[page][size]` read instead of returning an events array, so the
claim fails as universally stated. -/
theorem C4_counterexample :
    noPageSearchPayload.getKey "_embedded"
      = Except.ok (Json.obj [("events", Json.arr [sampleEvent])]) ∧
    searchEvent sampleEvent = Except.ok sampleEventSummary ∧
    search noPageSearchPayload = HResult.fault ∧
    search noPageSearchPayload
      ≠ HResult.ok (Json.obj [("events", Json.arr [sampleEventSummary])]) := by
  refine ⟨rfl, rfl, rfl, ?_⟩
  intro h
  exact HResult.noConfusion h

/-- C4 (amended): for every vendor payload that also carries a page object
with a size key, whose embedded-events list is nonempty and whose events
each carry the fields the mapping reads, the returned events array has
the same length and the i-th summary agrees with the i-th event on id,
date and event name. -/
theorem C4_amended_search_maps_events (d p s emb : Json) (evs : List Json)
    (hp : d.getKey "page" = Except.ok p)
    (hs : p.getKey "size" = Except.ok s)
    (he : d.keysHas "_embedded" = Except.ok true)
    (hemb : d.getKey "_embedded" = Except.ok emb)
    (hev : emb.getKey "events" = Except.ok (Json.arr evs))
    (hne : evs ≠ [])
    (hall : ∀ e ∈ evs, ∃ r, searchEvent e = Except.ok r) :
    ∃ l, search d = HResult.ok (Json.obj [("events", Json.arr l)]) ∧
      l.length = evs.length ∧
      ∀ i (h1 : i < evs.length) (h2 : i < l.length),
        (l.get ⟨i, h2⟩).find "id" = ((evs.get ⟨i, h1⟩).getKey "id").toOption ∧
        (l.get ⟨i, h2⟩).find "date" = ((evs.get ⟨i, h1⟩).getKey "dates" >>= fun ds =>
          ds.getKey "start" >>= fun st => st.getKey "localDate").toOption ∧
        (l.get ⟨i, h2⟩).find "event" = ((evs.get ⟨i, h1⟩).getKey "name").toOption := by
  obtain ⟨out, hout⟩ := mapEvents_ok_of_all hall
  have hM : searchM d = Except.ok (Json.obj [("events", Json.arr out)]) := by
    simp only [searchM, hp, pym_ok_bind, hs, pyIf_true he, hemb, hev]
    simp only [show (Json.arr evs).pyIter = Except.ok evs from rfl, pym_ok_bind, hout]
    rfl
  obtain ⟨hlen, hget⟩ := mapEvents_length_and_get hout
  refine ⟨out, by unfold search; rw [hM], hlen, ?_⟩
  intro i h1 h2
  have hse := hget i h1 h2
  obtain ⟨idv, dates, start, date, tf, images, img0, icon, name, cls, c0, seg, genre,
    emb2, venues, v0, venue, h_id, h_da, h_st, h_dt, h_tf, _, _, _, h_nm, _, _, _, _,
    _, _, _, _, hr⟩ := searchEvent_ok_inv hse
  rw [hr]
  have htfS : tf = [] ∨ ∃ t, tf = [("time", t)] := by
    rcases h_tf with ⟨_, h⟩ | ⟨t, _, _, h⟩
    · exact Or.inl h
    · exact Or.inr ⟨t, h⟩
  simp only [List.get_eq_getElem] at h_id h_da h_nm
  refine ⟨?_, ?_, ?_⟩ <;>
    rcases htfS with h | ⟨t, h⟩ <;> subst h <;>
      simp [Json.find, List.lookup, Except.toOption, h_id, h_da, pym_ok_bind, h_st,
        h_dt, h_nm]

/-- C4 witness: a payload with a page size and a single complete event. -/
theorem C4_amended_search_maps_events_witness :
    (∀ e ∈ [sampleEvent], ∃ r, searchEvent e = Except.ok r) ∧
    (∃ l, search sampleSearchPayload = HResult.ok (Json.obj [("events", Json.arr l)]) ∧
      l.length = [sampleEvent].length ∧
      ∀ i (h1 : i < [sampleEvent].length) (h2 : i < l.length),
        (l.get ⟨i, h2⟩).find "id" = (([sampleEvent].get ⟨i, h1⟩).getKey "id").toOption ∧
        (l.get ⟨i, h2⟩).find "date" = (([sampleEvent].get ⟨i, h1⟩).getKey "dates"
          >>= fun ds => ds.getKey "start" >>= fun st => st.getKey "localDate").toOption ∧
        (l.get ⟨i, h2⟩).find "event"
          = (([sampleEvent].get ⟨i, h1⟩).getKey "name").toOption) := by
  have hall : ∀ e ∈ [sampleEvent], ∃ r, searchEvent e = Except.ok r := by
    intro e he
    simp only [List.mem_singleton] at he
    subst he
    exact ⟨sampleEventSummary, rfl⟩
  exact ⟨hall, C4_amended_search_maps_events sampleSearchPayload
    (Json.obj [("size", Json.num 20)]) (Json.num 20)
    (Json.obj [("events", Json.arr [sampleEvent])]) [sampleEvent]
    rfl rfl rfl rfl rfl (by simp) hall⟩

theorem lookup_shape_ne {l : List (String × Json)} {k2 : String} (k : String)
    (h : l = [] ∨ ∃ v, l = [(k2, v)]) (hne : (k == k2) = false) : l.lookup k = none := by
  rcases h with rfl | ⟨v, rfl⟩ <;> simp [List.lookup, hne]

theorem mem_keys_shape {l : List (String × Json)} {k2 : String} {k : String}
    (h : l = [] ∨ ∃ v, l = [(k2, v)]) (hm : k ∈ l.map Prod.fst) : k = k2 := by
  rcases h with rfl | ⟨v, rfl⟩
  · simp at hm
  · simpa using hm

theorem find_key_mem {fs : List (String × Json)} {k : String} {v : Json}
    (h : (Json.obj fs).find k = some v) : k ∈ fs.map Prod.fst := by
  simp only [Json.find] at h
  induction fs with
  | nil => simp [List.lookup] at h
  | cons kv rest ih =>
    obtain ⟨k1, v1⟩ := kv
    simp only [List.lookup] at h
    cases hk : (k == k1) with
    | true =>
      simp only [List.map_cons, List.mem_cons]
      exact Or.inl (eq_of_beq hk)
    | false =>
      rw [hk] at h
      simp only [List.map_cons, List.mem_cons]
      exact Or.inr (ih h)

theorem searchM_ok_inv {d r : Json} (h : searchM d = Except.ok r) :
    ∃ p s, d.getKey "page" = Except.ok p ∧ p.getKey "size" = Except.ok s ∧
      ((d.keysHas "_embedded" = Except.ok false ∧ r = Json.obj [("events", Json.num 0)]) ∨
        (d.keysHas "_embedded" = Except.ok true ∧
          ∃ emb events evs out, d.getKey "_embedded" = Except.ok emb ∧
            emb.getKey "events" = Except.ok events ∧ events.pyIter = Except.ok evs ∧
            mapEvents evs = Except.ok out ∧ r = Json.obj [("events", Json.arr out)])) := by
  simp only [searchM, pym_bind_ok, pyIf_ok_iff, pym_pure_ok] at h
  obtain ⟨p, hp, s, hs, h2⟩ := h
  refine ⟨p, s, hp, hs, ?_⟩
  rcases h2 with ⟨hc, hthen⟩ | ⟨hc, helse⟩
  · obtain ⟨emb, h3, events, h4, evs, h5, out, h6, hr⟩ := hthen
    exact Or.inr ⟨hc, emb, events, evs, out, h3, h4, h5, h6, hr⟩
  · exact Or.inl ⟨hc, helse⟩

theorem search_summary_sources {d r : Json} {l : List Json}
    (hok : search d = HResult.ok r) (hr : r = Json.obj [("events", Json.arr l)]) :
    ∀ sm ∈ l, ∃ evs e,
      (d.getKey "_embedded" >>= fun em => em.getKey "events" >>= fun ev =>
        Json.pyIter ev) = Except.ok evs ∧ e ∈ evs ∧ searchEvent e = Except.ok sm := by
  subst hr
  obtain ⟨p, s, hp, hs, hcase⟩ := searchM_ok_inv (search_ok_inv hok)
  rcases hcase with ⟨hc, hr0⟩ | ⟨hc, emb, events, evs, out, h3, h4, h5, h6, hr1⟩
  · exfalso
    simp at hr0
  · have hlo : l = out := by simpa using hr1
    subst hlo
    intro sm hsm
    obtain ⟨e, he2, hse⟩ := mapEvents_mem h6 sm hsm
    refine ⟨evs, e, ?_, he2, hse⟩
    simp only [h3, pym_ok_bind, h4, h5]

theorem searchEvent_time_source {e sm : Json} (h : searchEvent e = Except.ok sm) :
    (sm.find "time").isSome ↔ (e.getKey "dates" >>= fun ds => ds.getKey "start" >>=
      fun st => st.keysHas "localTime") = Except.ok true := by
  obtain ⟨idv, dates, start, date, tf, images, img0, icon, name, cls, c0, seg, genre,
    emb2, venues, v0, venue, h_id, h_da, h_st, h_dt, h_tf, _, _, _, _, _, _, _, _, _,
    _, _, _, hr⟩ := searchEvent_ok_inv h
  subst hr
  rcases h_tf with ⟨hc, htf⟩ | ⟨t, hc, ht, htf⟩ <;> subst htf <;>
    simp [Json.find, List.lookup, h_da, pym_ok_bind, h_st, hc]

theorem card1_optional_sources {d r : Json} (hok : card1 d = HResult.ok r) :
    ∃ ret, r = Json.obj [("card1", Json.arr [ret])] ∧
      ((ret.find "time").isSome → (d.getKey "dates" >>= fun ds => ds.getKey "start" >>=
        fun st => st.keysHas "localTime") = Except.ok true) ∧
      ((ret.find "artist_team").isSome → (d.getKey "_embedded" >>= fun em =>
        em.keysHas "attractions") = Except.ok true) ∧
      ((ret.find "price_ranges").isSome → d.keysHas "priceranges" = Except.ok true) ∧
      ((ret.find "seat_map").isSome → d.keysHas "seatmap" = Except.ok true) ∧
      (∀ k v, ret.find k = some v → k ∈ (["title", "date", "time", "artist_team", "url",
        "venue", "genre", "price_ranges", "ticket_status", "buy_ticket_at",
        "seat_map"] : List String)) := by
  obtain ⟨title, dates, start, date, tf, emb, af, url, venues, v0, venue, cls, c0, g,
    pf, st2, sc, sf, hname, ht, hd, hst, hdt, htf, he, haf, hu, hv, hv0, hven, hc, hc0,
    hg, hpf, hsts, hsc2, hsf, hr⟩ := card1M_ok_inv (card1_ok_inv hok)
  subst hr
  have htfS : tf = [] ∨ ∃ v, tf = [("time", v)] := by
    rcases htf with ⟨_, h2⟩ | ⟨t, _, _, h2⟩
    · exact Or.inl h2
    · exact Or.inr ⟨t, h2⟩
  have hafS : af = [] ∨ ∃ v, af = [("artist_team", v)] := by
    rcases haf with ⟨_, h2⟩ | ⟨an, _, h2⟩
    · exact Or.inl h2
    · exact Or.inr ⟨an, h2⟩
  have hpfS : pf = [] ∨ ∃ v, pf = [("price_ranges", v)] := by
    rcases hpf with ⟨_, h2⟩ | ⟨_, p, h2⟩
    · exact Or.inl h2
    · exact Or.inr ⟨p, h2⟩
  have hsfS : sf = [] ∨ ∃ v, sf = [("seat_map", v)] := by
    rcases hsf with ⟨_, h2⟩ | ⟨_, su, h2⟩
    · exact Or.inl h2
    · exact Or.inr ⟨su, h2⟩
  refine ⟨_, rfl, ?_, ?_, ?_, ?_, ?_⟩
  · rcases htf with ⟨hcnd, h2⟩ | ⟨t, hcnd, _, h2⟩ <;> subst h2
    · intro hq
      simp [Json.find, lookup_append, List.lookup,
        lookup_shape_ne "time" hafS rfl, lookup_shape_ne "time" hpfS rfl,
        lookup_shape_ne "time" hsfS rfl] at hq
    · intro _
      simp only [hd, pym_ok_bind, hst, hcnd]
  · rcases haf with ⟨hcnd, h2⟩ | ⟨an, hcnd, h2⟩ <;> subst h2
    · intro hq
      simp [Json.find, lookup_append, List.lookup,
        lookup_shape_ne "artist_team" htfS rfl, lookup_shape_ne "artist_team" hpfS rfl,
        lookup_shape_ne "artist_team" hsfS rfl] at hq
    · intro _
      simp only [he, pym_ok_bind, hcnd]
  · rcases hpf with ⟨hcnd, h2⟩ | ⟨hcnd, p, h2⟩ <;> subst h2
    · intro hq
      simp [Json.find, lookup_append, List.lookup,
        lookup_shape_ne "price_ranges" htfS rfl, lookup_shape_ne "price_ranges" hafS rfl,
        lookup_shape_ne "price_ranges" hsfS rfl] at hq
    · exact fun _ => hcnd
  · rcases hsf with ⟨hcnd, h2⟩ | ⟨hcnd, su, h2⟩ <;> subst h2
    · intro hq
      simp [Json.find, lookup_append, List.lookup,
        lookup_shape_ne "seat_map" htfS rfl, lookup_shape_ne "seat_map" hafS rfl,
        lookup_shape_ne "seat_map" hpfS rfl] at hq
    · exact fun _ => hcnd
  · intro k v hkv
    have hm := find_key_mem hkv
    simp only [List.map_append, List.mem_append] at hm
    rcases hm with ((((((hm | hm) | hm) | hm) | hm) | hm) | hm)
    · simp only [List.map_cons, List.map_nil, List.mem_cons, List.not_mem_nil,
        or_false] at hm
      rcases hm with rfl | rfl <;> simp
    · have hk2 := mem_keys_shape htfS hm
      subst hk2
      simp
    · have hk2 := mem_keys_shape hafS hm
      subst hk2
      simp
    · simp only [List.map_cons, List.map_nil, List.mem_cons, List.not_mem_nil,
        or_false] at hm
      rcases hm with rfl | rfl | rfl <;> simp
    · have hk2 := mem_keys_shape hpfS hm
      subst hk2
      simp
    · simp only [List.map_cons, List.map_nil, List.mem_cons, List.not_mem_nil,
        or_false] at hm
      rcases hm with rfl | rfl <;> simp
    · have hk2 := mem_keys_shape hsfS hm
      subst hk2
      simp

theorem card2_optional_sources {d r : Json} (hok : card2 d = HResult.ok r) :
    ∃ v0, (d.getKey "_embedded" >>= fun em => em.getKey "venues" >>= fun vs =>
      vs.getIdx 0) = Except.ok v0 ∧
      ((r.find "address").isSome → v0.keysHas "address" = Except.ok true) ∧
      ((r.find "city").isSome → Json.pyIn "city" v0 = Except.ok true) ∧
      ((r.find "stateCode").isSome → v0.keysHas "state" = Except.ok true ∧
        (v0.getKey "state" >>= fun stv => stv.keysHas "stateCode") = Except.ok true) ∧
      ((r.find "postal_code").isSome → v0.keysHas "postalCode" = Except.ok true) ∧
      ((r.find "url").isSome → v0.keysHas "url" = Except.ok true) ∧
      (r.find "logo").isSome ∧
      (v0.keysHas "images" = Except.ok false → r.find "logo" = some (Json.str "nologo")) ∧
      (∃ m, (v0.getKey "name" >>= fun vn => vn.asString) = Except.ok m ∧
        r.find "map" = some (Json.str ("https://www.google.com/maps/search/?api="
          ++ google_api ++ "&query=" ++ m))) ∧
      (∀ k v, r.find k = some v → k ∈ (["venue", "logo", "address", "city", "stateCode",
        "postal_code", "url", "map"] : List String)) := by
  obtain ⟨emb, venues, v0, vname, logo, af, cf, sf, pfl, uf, vnameS, h1, he, hv, hv0,
    hvn, hlogo, haf, hcf, hsf, hpfl, huf, hvs, hr⟩ := card2M_ok_inv (card2_ok_inv hok)
  subst hr
  have hafS : af = [] ∨ ∃ v, af = [("address", v)] := by
    rcases haf with ⟨_, h2⟩ | ⟨_, l1, h2⟩
    · exact Or.inl h2
    · exact Or.inr ⟨l1, h2⟩
  have hcfS : cf = [] ∨ ∃ v, cf = [("city", v)] := by
    rcases hcf with ⟨_, h2⟩ | ⟨_, cn, h2⟩
    · exact Or.inl h2
    · exact Or.inr ⟨cn, h2⟩
  have hsfS : sf = [] ∨ ∃ v, sf = [("stateCode", v)] := by
    rcases hsf with ⟨_, h2⟩ | ⟨_, _, sc2, h2⟩
    · exact Or.inl h2
    · exact Or.inr ⟨sc2, h2⟩
  have hpflS : pfl = [] ∨ ∃ v, pfl = [("postal_code", v)] := by
    rcases hpfl with ⟨_, h2⟩ | ⟨_, pc, h2⟩
    · exact Or.inl h2
    · exact Or.inr ⟨pc, h2⟩
  have hufS : uf = [] ∨ ∃ v, uf = [("url", v)] := by
    rcases huf with ⟨_, h2⟩ | ⟨_, u, h2⟩
    · exact Or.inl h2
    · exact Or.inr ⟨u, h2⟩
  refine ⟨v0, by simp only [he, pym_ok_bind, hv, hv0], ?_, ?_, ?_, ?_, ?_, ?_, ?_, ?_, ?_⟩
  · rcases haf with ⟨hcnd, h2⟩ | ⟨hcnd, l1, h2⟩ <;> subst h2
    · intro hq
      simp [Json.find, lookup_append, List.lookup,
        lookup_shape_ne "address" hcfS rfl, lookup_shape_ne "address" hsfS rfl,
        lookup_shape_ne "address" hpflS rfl, lookup_shape_ne "address" hufS rfl] at hq
    · exact fun _ => hcnd
  · rcases hcf with ⟨hcnd, h2⟩ | ⟨hcnd, cn, h2⟩ <;> subst h2
    · intro hq
      simp [Json.find, lookup_append, List.lookup,
        lookup_shape_ne "city" hafS rfl, lookup_shape_ne "city" hsfS rfl,
        lookup_shape_ne "city" hpflS rfl, lookup_shape_ne "city" hufS rfl] at hq
    · exact fun _ => hcnd
  · rcases hsf with ⟨hcnd, h2⟩ | ⟨hcnd1, hcnd2, sc2, h2⟩ <;> subst h2
    · intro hq
      simp [Json.find, lookup_append, List.lookup,
        lookup_shape_ne "stateCode" hafS rfl, lookup_shape_ne "stateCode" hcfS rfl,
        lookup_shape_ne "stateCode" hpflS rfl, lookup_shape_ne "stateCode" hufS rfl] at hq
    · exact fun _ => ⟨hcnd1, hcnd2⟩
  · rcases hpfl with ⟨hcnd, h2⟩ | ⟨hcnd, pc, h2⟩ <;> subst h2
    · intro hq
      simp [Json.find, lookup_append, List.lookup,
        lookup_shape_ne "postal_code" hafS rfl, lookup_shape_ne "postal_code" hcfS rfl,
        lookup_shape_ne "postal_code" hsfS rfl, lookup_shape_ne "postal_code" hufS rfl] at hq
    · exact fun _ => hcnd
  · rcases huf with ⟨hcnd, h2⟩ | ⟨hcnd, u, h2⟩ <;> subst h2
    · intro hq
      simp [Json.find, lookup_append, List.lookup,
        lookup_shape_ne "url" hafS rfl, lookup_shape_ne "url" hcfS rfl,
        lookup_shape_ne "url" hsfS rfl, lookup_shape_ne "url" hpflS rfl] at hq
    · exact fun _ => hcnd
  · simp [Json.find, lookup_append, List.lookup]
  · rcases hlogo with ⟨himg, hlv⟩ | ⟨himg, _⟩
    · subst hlv
      intro _
      simp [Json.find, lookup_append, List.lookup]
    · intro hq
      rw [hq] at himg
      injection himg with hb
      exact Bool.noConfusion hb
  · refine ⟨vnameS, by simp only [hvn, pym_ok_bind, hvs], ?_⟩
    simp [Json.find, lookup_append, List.lookup,
      lookup_shape_ne "map" hafS rfl, lookup_shape_ne "map" hcfS rfl,
      lookup_shape_ne "map" hsfS rfl, lookup_shape_ne "map" hpflS rfl,
      lookup_shape_ne "map" hufS rfl]
  · intro k v hkv
    have hm := find_key_mem hkv
    simp only [List.map_append, List.mem_append] at hm
    rcases hm with ((((((hm | hm) | hm) | hm) | hm) | hm) | hm)
    · simp only [List.map_cons, List.map_nil, List.mem_cons, List.not_mem_nil,
        or_false] at hm
      rcases hm with rfl | rfl <;> simp
    · have hk2 := mem_keys_shape hafS hm
      subst hk2
      simp
    · have hk2 := mem_keys_shape hcfS hm
      subst hk2
      simp
    · have hk2 := mem_keys_shape hsfS hm
      subst hk2
      simp
    · have hk2 := mem_keys_shape hpflS hm
      subst hk2
      simp
    · have hk2 := mem_keys_shape hufS hm
      subst hk2
      simp
    · simp only [List.map_cons, List.map_nil, List.mem_cons, List.not_mem_nil,
        or_false] at hm
      subst hm
      simp

/-- C7: across the three handlers every optional output field is present
only when its vendor source exists — the per-event time only with a
start localTime, card1 time, artist, price and seat fields only with
their guards, card2 address, city, stateCode, postal code and url only
with their venue fields — a classification level equal to "Undefined"
contributes nothing to the genre string, no output key outside the fixed
schema is ever produced, and the two exceptions hold: the card2 logo is
always present (defaulting to the literal "nologo" when the venue has no
images) and the map link is always derived from the venue name. -/
theorem C7_optional_field_invariant :
    (∀ d r l, search d = HResult.ok r → r = Json.obj [("events", Json.arr l)] →
      ∀ sm ∈ l, ∃ evs e, (d.getKey "_embedded" >>= fun em => em.getKey "events" >>=
        fun ev => Json.pyIter ev) = Except.ok evs ∧ e ∈ evs ∧
        searchEvent e = Except.ok sm) ∧
    (∀ e sm, searchEvent e = Except.ok sm → ((sm.find "time").isSome ↔
      (e.getKey "dates" >>= fun ds => ds.getKey "start" >>= fun st =>
        st.keysHas "localTime") = Except.ok true)) ∧
    (∀ c0 lv lvl sep g, c0.getKey lvl = Except.ok lv →
      lv.getKey "name" = Except.ok (Json.str "Undefined") →
      genreStep c0 lvl sep g = Except.ok g) ∧
    (∀ d r, card1 d = HResult.ok r → ∃ ret, r = Json.obj [("card1", Json.arr [ret])] ∧
      ((ret.find "time").isSome → (d.getKey "dates" >>= fun ds => ds.getKey "start" >>=
        fun st => st.keysHas "localTime") = Except.ok true) ∧
      ((ret.find "artist_team").isSome → (d.getKey "_embedded" >>= fun em =>
        em.keysHas "attractions") = Except.ok true) ∧
      ((ret.find "price_ranges").isSome → d.keysHas "priceranges" = Except.ok true) ∧
      ((ret.find "seat_map").isSome → d.keysHas "seatmap" = Except.ok true) ∧
      (∀ k v, ret.find k = some v → k ∈ (["title", "date", "time", "artist_team", "url",
        "venue", "genre", "price_ranges", "ticket_status", "buy_ticket_at",
        "seat_map"] : List String))) ∧
    (∀ d r, card2 d = HResult.ok r → ∃ v0, (d.getKey "_embedded" >>= fun em =>
        em.getKey "venues" >>= fun vs => vs.getIdx 0) = Except.ok v0 ∧
      ((r.find "address").isSome → v0.keysHas "address" = Except.ok true) ∧
      ((r.find "city").isSome → Json.pyIn "city" v0 = Except.ok true) ∧
      ((r.find "stateCode").isSome → v0.keysHas "state" = Except.ok true ∧
        (v0.getKey "state" >>= fun stv => stv.keysHas "stateCode") = Except.ok true) ∧
      ((r.find "postal_code").isSome → v0.keysHas "postalCode" = Except.ok true) ∧
      ((r.find "url").isSome → v0.keysHas "url" = Except.ok true) ∧
      (r.find "logo").isSome ∧
      (v0.keysHas "images" = Except.ok false → r.find "logo" = some (Json.str "nologo")) ∧
      (∃ m, (v0.getKey "name" >>= fun vn => vn.asString) = Except.ok m ∧
        r.find "map" = some (Json.str ("https://www.google.com/maps/search/?api="
          ++ google_api ++ "&query=" ++ m))) ∧
      (∀ k v, r.find k = some v → k ∈ (["venue", "logo", "address", "city", "stateCode",
        "postal_code", "url", "map"] : List String))) := by
  refine ⟨fun d r l hok hr => search_summary_sources hok hr,
    fun e sm h => searchEvent_time_source h,
    fun c0 lv lvl sep g hk hn => ?_,
    fun d r hok => card1_optional_sources hok,
    fun d r hok => card2_optional_sources hok⟩
  rw [genreStep_read hk hn]
  simp

/-- C7 witness: the invariant instantiated on a concrete search response,
event summary, Undefined classification level, card1 response and card2
response. -/
theorem C7_optional_field_invariant_witness :
    (∀ sm ∈ [sampleEventSummary], ∃ evs e, (sampleSearchPayload.getKey "_embedded" >>=
      fun em => em.getKey "events" >>= fun ev => Json.pyIter ev) = Except.ok evs ∧
      e ∈ evs ∧ searchEvent e = Except.ok sm) ∧
    ((sampleEventSummary.find "time").isSome ↔
      (sampleEvent.getKey "dates" >>= fun ds => ds.getKey "start" >>= fun st =>
        st.keysHas "localTime") = Except.ok true) ∧
    genreStep classUndefSeg "segment" "" "" = Except.ok "" ∧
    (∃ ret, Json.obj [("card1", Json.arr [card1RetWithPrice])]
        = Json.obj [("card1", Json.arr [ret])] ∧
      ((ret.find "time").isSome → (card1PayloadBothPrice.getKey "dates" >>= fun ds =>
        ds.getKey "start" >>= fun st => st.keysHas "localTime") = Except.ok true) ∧
      ((ret.find "artist_team").isSome → (card1PayloadBothPrice.getKey "_embedded" >>=
        fun em => em.keysHas "attractions") = Except.ok true) ∧
      ((ret.find "price_ranges").isSome →
        card1PayloadBothPrice.keysHas "priceranges" = Except.ok true) ∧
      ((ret.find "seat_map").isSome →
        card1PayloadBothPrice.keysHas "seatmap" = Except.ok true) ∧
      (∀ k v, ret.find k = some v → k ∈ (["title", "date", "time", "artist_team", "url",
        "venue", "genre", "price_ranges", "ticket_status", "buy_ticket_at",
        "seat_map"] : List String))) ∧
    (∃ v0, (sampleVenuePayload.getKey "_embedded" >>= fun em =>
        em.getKey "venues" >>= fun vs => vs.getIdx 0) = Except.ok v0 ∧
      ((sampleVenueRet.find "address").isSome →
        v0.keysHas "address" = Except.ok true) ∧
      ((sampleVenueRet.find "city").isSome → Json.pyIn "city" v0 = Except.ok true) ∧
      ((sampleVenueRet.find "stateCode").isSome → v0.keysHas "state" = Except.ok true ∧
        (v0.getKey "state" >>= fun stv => stv.keysHas "stateCode") = Except.ok true) ∧
      ((sampleVenueRet.find "postal_code").isSome →
        v0.keysHas "postalCode" = Except.ok true) ∧
      ((sampleVenueRet.find "url").isSome → v0.keysHas "url" = Except.ok true) ∧
      (sampleVenueRet.find "logo").isSome ∧
      (v0.keysHas "images" = Except.ok false →
        sampleVenueRet.find "logo" = some (Json.str "nologo")) ∧
      (∃ m, (v0.getKey "name" >>= fun vn => vn.asString) = Except.ok m ∧
        sampleVenueRet.find "map" = some (Json.str
          ("https://www.google.com/maps/search/?api=" ++ google_api ++ "&query=" ++ m))) ∧
      (∀ k v, sampleVenueRet.find k = some v → k ∈ (["venue", "logo", "address", "city",
        "stateCode", "postal_code", "url", "map"] : List String))) :=
  ⟨C7_optional_field_invariant.1 sampleSearchPayload
      (Json.obj [("events", Json.arr [sampleEventSummary])]) [sampleEventSummary] rfl rfl,
    C7_optional_field_invariant.2.1 sampleEvent sampleEventSummary rfl,
    C7_optional_field_invariant.2.2.1 classUndefSeg
      (Json.obj [("name", Json.str "Undefined")]) "segment" "" "" rfl rfl,
    C7_optional_field_invariant.2.2.2.1 card1PayloadBothPrice
      (Json.obj [("card1", Json.arr [card1RetWithPrice])]) rfl,
    C7_optional_field_invariant.2.2.2.2 sampleVenuePayload sampleVenueRet rfl⟩
